import Mathlib

set_option autoImplicit false
set_option linter.unusedVariables false

/-! Shallow embedding of deal.II's HDF5 wrapper (`source/base/hdf5.cc`).

Native HDF5 library calls are modelled as abstract operations recorded in
traces; reference-counted handle wrappers carry the kind of entity that
produced the stored handle together with the disposal action bound at
construction. Data buffers are modelled by their element counts, which is all
that the dimension checks and the arguments of the issued HDF5 calls depend
on. `AssertDimension` failures (fatal contract violations) are modelled by an
`Except` error result. -/

/-- Kind of native entity an HDF5 handle denotes. -/
inductive HandleKind
  | dataset
  | group
  | file
  | datatype
deriving DecidableEq

/-- Disposal action bound to a reference-counted handle wrapper at
construction time. -/
inductive CloseAction
  | dclose -- H5Dclose
  | sclose -- H5Sclose
  | gclose -- H5Gclose
  | tclose -- H5Tclose
  | fclose -- H5Fclose
deriving DecidableEq

/-- Predefined native HDF5 datatype constants used by the wrapper. -/
inductive NativeTypeId
  | NATIVE_FLOAT
  | NATIVE_DOUBLE
  | NATIVE_LDOUBLE
  | NATIVE_INT
  | NATIVE_UINT
deriving DecidableEq

/-- Byte width of one value of a predefined native type on the modelled
platform (x86-64: sizeof(float)=4, sizeof(double)=8, sizeof(long double)=16,
sizeof(int)=sizeof(unsigned int)=4). -/
def nativeWidth : NativeTypeId → Nat
  | .NATIVE_FLOAT => 4
  | .NATIVE_DOUBLE => 8
  | .NATIVE_LDOUBLE => 16
  | .NATIVE_INT => 4
  | .NATIVE_UINT => 4

/-- Whether a predefined native type is a floating-point type. -/
def NativeTypeId.isFloating : NativeTypeId → Bool
  | .NATIVE_FLOAT => true
  | .NATIVE_DOUBLE => true
  | .NATIVE_LDOUBLE => true
  | .NATIVE_INT => false
  | .NATIVE_UINT => false

/-- One field of a compound HDF5 datatype, as registered by H5Tinsert:
a field name, a byte offset, and the predefined base type of the field. -/
structure H5Field where
  fieldName : String
  offset : Nat
  base : NativeTypeId
deriving DecidableEq

/-- Value of a type descriptor: either a predefined native constant or a
compound type freshly built by H5Tcreate(H5T_COMPOUND, size) followed by
H5Tinsert calls. -/
inductive TypeVal
  | predefined (t : NativeTypeId)
  | compound (size : Nat) (fields : List H5Field)
deriving DecidableEq

/-- A type descriptor as returned by `get_hdf5_datatype`: the shared_ptr
either carries no HDF5 disposal action (predefined constants) or closes the
compound type on release. -/
structure TypeDescriptor where
  val : TypeVal
  deleter : Option CloseAction
deriving DecidableEq

/-- The closed set of element types `T` for which the wrapper is explicitly
instantiated. -/
inductive ElemType
  | float
  | double
  | longDouble
  | int
  | uint
  | complexFloat
  | complexDouble
  | complexLongDouble
deriving DecidableEq

/-- Whether the element type is one of the three std::complex instantiations. -/
def ElemType.isComplex : ElemType → Bool
  | .complexFloat => true
  | .complexDouble => true
  | .complexLongDouble => true
  | _ => false

/-- Embedding of `internal::get_hdf5_datatype<T>()` (hdf5.cc, lines 36-116).
Primitive types alias a predefined native constant with no deleter; each
complex type builds a compound of size sizeof(std::complex<F>) = 2*sizeof(F)
with fields "r" at offset 0 and "i" at offset sizeof(F), and the shared_ptr's
deleter calls H5Tclose. -/
def get_hdf5_datatype : ElemType → TypeDescriptor
  | .float => ⟨.predefined .NATIVE_FLOAT, none⟩
  | .double => ⟨.predefined .NATIVE_DOUBLE, none⟩
  | .longDouble => ⟨.predefined .NATIVE_LDOUBLE, none⟩
  | .int => ⟨.predefined .NATIVE_INT, none⟩
  | .uint => ⟨.predefined .NATIVE_UINT, none⟩
  | .complexFloat =>
      ⟨.compound (2 * 4) [⟨"r", 0, .NATIVE_FLOAT⟩, ⟨"i", 4, .NATIVE_FLOAT⟩],
        some .tclose⟩
  | .complexDouble =>
      ⟨.compound (2 * 8) [⟨"r", 0, .NATIVE_DOUBLE⟩, ⟨"i", 8, .NATIVE_DOUBLE⟩],
        some .tclose⟩
  | .complexLongDouble =>
      ⟨.compound (2 * 16) [⟨"r", 0, .NATIVE_LDOUBLE⟩, ⟨"i", 16, .NATIVE_LDOUBLE⟩],
        some .tclose⟩

/-- Modulus of C++ `unsigned int` arithmetic (32 bits). -/
def u32 : Nat := 2 ^ 32

/-- Dataspace argument of an H5Dwrite call. -/
inductive SpaceArg
  | all -- H5S_ALL
  | mem (rank : Nat) (dims : List Nat) -- the freshly created memory dataspace
  | file -- the dataset's own (on-disk) dataspace, with its current selection
deriving DecidableEq

/-- Transfer property list argument of an H5Dwrite call. -/
inductive PlistArg
  | h5pDefault -- H5P_DEFAULT
  | xferCollective -- plist from H5Pcreate(H5P_DATASET_XFER) set to collective
deriving DecidableEq

/-- Buffer argument of an H5Dwrite call, modelled by its element count. -/
inductive BufArg
  | user (len : Nat) -- the caller's buffer of len elements
  | nullBuf -- the NULL pointer used by the empty write
deriving DecidableEq

/-- Abstract HDF5 library operations issued by the wrapper, in call order. -/
inductive H5Op
  | screateSimple (rank : Nat) (dims : List Nat) -- H5Screate_simple
  | dcreate (name : String) -- H5Dcreate2
  | gopen (name : String) -- H5Gopen2
  | selectHyperslab (offset : List Nat) (stride : Option (List Nat))
      (count : List Nat) (block : Option (List Nat)) -- H5Sselect_hyperslab
  | selectElements (numElements : Nat) (coordinates : List Nat) -- H5Sselect_elements
  | selectNone -- H5Sselect_none
  | pcreateXfer -- H5Pcreate(H5P_DATASET_XFER)
  | setDxplMpioCollective -- H5Pset_dxpl_mpio(plist, H5FD_MPIO_COLLECTIVE)
  | dwrite (memSpace : SpaceArg) (fileSpace : SpaceArg)
      (plist : PlistArg) (buf : BufArg) -- H5Dwrite
  | pclose -- H5Pclose
  | sclose -- H5Sclose (memory dataspace)
deriving DecidableEq

/-- A fatal contract violation raised by the `AssertDimension` macro. -/
inductive AssertError
  | dimensionMismatch (dim1 dim2 : Nat)
deriving DecidableEq

/-- A simple dataspace value, as produced by H5Screate_simple. -/
structure SimpleDataspace where
  rank : Nat
  dims : List Nat
deriving DecidableEq

/-- Construction mode of a DataSet or Group (hdf5.h Mode enum). -/
inductive Mode
  | create
  | openMode
deriving DecidableEq

/-- State of a `DataSet<T>` object after construction: the HDF5Object base
fields (name, mpi), the rank/dimensions/total_size members, the kind of
native entity the stored `hdf5_reference` handle denotes together with the
deleter bound to that shared_ptr, the deleter bound to the `dataspace`
shared_ptr, and the value held by `*dataspace` (`none` when the constructor
never assigned it). -/
structure DataSet where
  name : String
  mpi : Bool
  rank : Nat
  dimensions : List Nat
  total_size : Nat
  refKind : HandleKind
  refDeleter : CloseAction
  spaceDeleter : CloseAction
  dataspace : Option SimpleDataspace
deriving DecidableEq

/-- Embedding of the `DataSet<T>` constructor (hdf5.cc, lines 268-318),
returning the constructed object together with the trace of HDF5 calls it
issues. Both shared_ptr wrappers are allocated first with deleters H5Dclose
and H5Sclose; `total_size` is the left fold of `*` over `dimensions` starting
from 1. In create mode the constructor calls H5Screate_simple (assigning
`*dataspace`) and then H5Dcreate2 (assigning `*hdf5_reference` a dataset
handle). In open mode it calls H5Gopen2 — a group-open — to fill
`*hdf5_reference` and never assigns `*dataspace`. -/
def DataSet.construct (name : String) (dims : List Nat) (mpi : Bool)
    (mode : Mode) : DataSet × List H5Op :=
  match mode with
  | .create =>
      (⟨name, mpi, dims.length, dims, dims.foldl (· * ·) 1,
         HandleKind.dataset, CloseAction.dclose, CloseAction.sclose,
         some ⟨dims.length, dims⟩⟩,
       [.screateSimple dims.length dims, .dcreate name])
  | .openMode =>
      (⟨name, mpi, dims.length, dims, dims.foldl (· * ·) 1,
         HandleKind.group, CloseAction.dclose, CloseAction.sclose,
         none⟩,
       [.gopen name])

/-- Embedding of `~DataSet` (hdf5.cc, lines 320-327): first
`hdf5_reference.reset()` fires that wrapper's deleter, then
`dataspace.reset()` fires the dataspace wrapper's deleter. The result is the
ordered list of disposal actions. -/
def DataSet.destructor (ds : DataSet) : List CloseAction :=
  [ds.refDeleter, ds.spaceDeleter]

/-- Whether a write call completed without hitting the fatal assertion path. -/
def writeOk : Except AssertError (List H5Op) → Bool
  | .ok _ => true
  | .error _ => false

/-- Embedding of `DataSet<T>::write_data(const std::vector<T> &)` (hdf5.cc,
lines 329-352). Checks `AssertDimension(total_size, data.size())`; on
success, optionally creates a collective transfer plist, writes the whole
buffer with H5S_ALL for both memory and file dataspaces, and closes the
plist if one was created. -/
def DataSet.write_data_vec (ds : DataSet) (dataLen : Nat) :
    Except AssertError (List H5Op) :=
  if ds.total_size = dataLen then
    .ok ((if ds.mpi then [.pcreateXfer, .setDxplMpioCollective] else []) ++
         [.dwrite .all .all
            (if ds.mpi then .xferCollective else .h5pDefault)
            (.user dataLen)] ++
         (if ds.mpi then [.pclose] else []))
  else
    .error (.dimensionMismatch ds.total_size dataLen)

/-- Embedding of `DataSet<T>::write_data(const FullMatrix<T> &)` (hdf5.cc,
lines 354-379). Identical to the vector form with the buffer's element count
`data.m() * data.n()`. -/
def DataSet.write_data_mat (ds : DataSet) (m n : Nat) :
    Except AssertError (List H5Op) :=
  if ds.total_size = m * n then
    .ok ((if ds.mpi then [.pcreateXfer, .setDxplMpioCollective] else []) ++
         [.dwrite .all .all
            (if ds.mpi then .xferCollective else .h5pDefault)
            (.user (m * n))] ++
         (if ds.mpi then [.pclose] else []))
  else
    .error (.dimensionMismatch ds.total_size (m * n))

/-- Embedding of `DataSet<T>::write_data_selection` (hdf5.cc, lines 381-419).
Checks `AssertDimension(coordinates.size(), data.size() * rank)`; on success
creates a rank-1 memory dataspace of extent data.size(), selects the listed
elements on the on-disk dataspace, performs the write, and releases the
plist (if any) and the memory dataspace. -/
def DataSet.write_data_selection (ds : DataSet) (dataLen : Nat)
    (coordinates : List Nat) : Except AssertError (List H5Op) :=
  if coordinates.length = dataLen * ds.rank then
    .ok ([.screateSimple 1 [dataLen],
          .selectElements dataLen coordinates] ++
         (if ds.mpi then [.pcreateXfer, .setDxplMpioCollective] else []) ++
         [.dwrite (.mem 1 [dataLen]) .file
            (if ds.mpi then .xferCollective else .h5pDefault)
            (.user dataLen)] ++
         (if ds.mpi then [.pclose] else []) ++
         [.sclose])
  else
    .error (.dimensionMismatch coordinates.length (dataLen * ds.rank))

/-- One step of `std::accumulate(count.begin(), count.end(), 1,
std::multiplies<unsigned int>())`: both the accumulator and the next
`hsize_t` extent are converted to `unsigned int` (reduction mod 2^32) and
multiplied in `unsigned int` arithmetic. -/
def mulU32 (acc c : Nat) : Nat :=
  acc * (c % u32) % u32

/-- The element count the hyperslab writes compare against: the per-axis
counts folded with 32-bit unsigned multiplication. -/
def accumulateU32 (count : List Nat) : Nat :=
  count.foldl mulU32 1

/-- Embedding of `DataSet<T>::write_data_hyperslab(const std::vector<T> &,
offset, count)` (hdf5.cc, lines 421-461). Checks the accumulated (32-bit)
product of `count` against data.size(); on success creates a rank-1 memory
dataspace, selects the hyperslab with NULL stride and NULL block (contiguous,
non-strided), writes, and releases the plist (if any) and the memory
dataspace. -/
def DataSet.write_data_hyperslab_vec (ds : DataSet) (dataLen : Nat)
    (offset count : List Nat) : Except AssertError (List H5Op) :=
  if accumulateU32 count = dataLen then
    .ok ([.screateSimple 1 [dataLen],
          .selectHyperslab offset none count none] ++
         (if ds.mpi then [.pcreateXfer, .setDxplMpioCollective] else []) ++
         [.dwrite (.mem 1 [dataLen]) .file
            (if ds.mpi then .xferCollective else .h5pDefault)
            (.user dataLen)] ++
         (if ds.mpi then [.pclose] else []) ++
         [.sclose])
  else
    .error (.dimensionMismatch (accumulateU32 count) dataLen)

/-- Embedding of `DataSet<T>::write_data_hyperslab(const FullMatrix<T> &,
offset, count)` (hdf5.cc, lines 463-503). Same as the vector form with a
rank-2 memory dataspace of dims {data.m(), data.n()} and element count
data.m() * data.n(). -/
def DataSet.write_data_hyperslab_mat (ds : DataSet) (m n : Nat)
    (offset count : List Nat) : Except AssertError (List H5Op) :=
  if accumulateU32 count = m * n then
    .ok ([.screateSimple 2 [m, n],
          .selectHyperslab offset none count none] ++
         (if ds.mpi then [.pcreateXfer, .setDxplMpioCollective] else []) ++
         [.dwrite (.mem 2 [m, n]) .file
            (if ds.mpi then .xferCollective else .h5pDefault)
            (.user (m * n))] ++
         (if ds.mpi then [.pclose] else []) ++
         [.sclose])
  else
    .error (.dimensionMismatch (accumulateU32 count) (m * n))

/-- Embedding of `DataSet<T>::write_data_none` (hdf5.cc, lines 505-537):
creates a rank-1 memory dataspace of extent 0, selects nothing on the on-disk
dataspace, writes with a NULL buffer, and releases the plist (if any) and
the memory dataspace. It has no dimension check. -/
def DataSet.write_data_none (ds : DataSet) : List H5Op :=
  [.screateSimple 1 [0], .selectNone] ++
  (if ds.mpi then [.pcreateXfer, .setDxplMpioCollective] else []) ++
  [.dwrite (.mem 1 [0]) .file
     (if ds.mpi then .xferCollective else .h5pDefault)
     .nullBuf] ++
  (if ds.mpi then [.pclose] else []) ++
  [.sclose]

/-- One write call of any of the six variants, with its buffer/selection
arguments. -/
inductive WriteCall
  | vec (dataLen : Nat)
  | mat (m n : Nat)
  | selection (dataLen : Nat) (coordinates : List Nat)
  | hyperslabVec (dataLen : Nat) (offset count : List Nat)
  | hyperslabMat (m n : Nat) (offset count : List Nat)
  | emptyWrite
deriving DecidableEq

/-- Dispatch of a write call to the corresponding member function. -/
def DataSet.issue (ds : DataSet) : WriteCall → Except AssertError (List H5Op)
  | .vec dataLen => ds.write_data_vec dataLen
  | .mat m n => ds.write_data_mat m n
  | .selection dataLen coords => ds.write_data_selection dataLen coords
  | .hyperslabVec dataLen offset count =>
      ds.write_data_hyperslab_vec dataLen offset count
  | .hyperslabMat m n offset count =>
      ds.write_data_hyperslab_mat m n offset count
  | .emptyWrite => .ok ds.write_data_none

/-- Whether an operation creates a transfer property list. -/
def isTransferCreate : H5Op → Bool
  | .pcreateXfer => true
  | _ => false

/-- Whether an operation configures a plist for collective MPI transfer. -/
def isSetCollective : H5Op → Bool
  | .setDxplMpioCollective => true
  | _ => false

/-- Whether an operation closes a property list. -/
def isTransferClose : H5Op → Bool
  | .pclose => true
  | _ => false

/-- Whether an operation is an H5Dwrite. -/
def isWrite : H5Op → Bool
  | .dwrite _ _ _ _ => true
  | _ => false

/-- The transfer plist an H5Dwrite uses, if the operation is a write. -/
def writePlist : H5Op → Option PlistArg
  | .dwrite _ _ p _ => some p
  | _ => none

/-- A trace follows the collective discipline: exactly one transfer plist is
created, configured collective, used by the single write, and closed after
the write, in that order. -/
def collectiveOk (t : List H5Op) : Bool :=
  decide (t.countP isTransferCreate = 1) &&
  decide (t.countP isSetCollective = 1) &&
  decide (t.countP isTransferClose = 1) &&
  decide (t.countP isWrite = 1) &&
  t.all (fun op => !isWrite op || decide (writePlist op = some PlistArg.xferCollective)) &&
  decide (t.findIdx isTransferCreate < t.findIdx isSetCollective) &&
  decide (t.findIdx isSetCollective < t.findIdx isWrite) &&
  decide (t.findIdx isWrite < t.findIdx isTransferClose)

/-- A trace follows the independent discipline: no transfer plist is created
or closed, and every write uses H5P_DEFAULT. -/
def independentOk (t : List H5Op) : Bool :=
  decide (t.countP isTransferCreate = 0) &&
  decide (t.countP isTransferClose = 0) &&
  t.all (fun op => !isWrite op || decide (writePlist op = some PlistArg.h5pDefault))

/-- State of a `Group` object: the HDF5Object base fields plus the kind of
entity the stored handle denotes and the deleter bound to it. -/
structure H5Group where
  name : String
  mpi : Bool
  refKind : HandleKind
  refDeleter : CloseAction
deriving DecidableEq

/-- Embedding of the `Group` constructor taking a parent (hdf5.cc, lines
539-567): the shared_ptr deleter is H5Gclose; create mode calls H5Gcreate2
and open mode calls H5Gopen2 under the parent's handle — both produce group
handles. -/
def H5Group.construct (name : String) (parentGroup : H5Group) (mpi : Bool)
    (mode : Mode) : H5Group :=
  match mode with
  | .create => ⟨name, mpi, HandleKind.group, CloseAction.gclose⟩
  | .openMode => ⟨name, mpi, HandleKind.group, CloseAction.gclose⟩

/-- Embedding of `Group::group(name)` (hdf5.cc, lines 573-577): returns
`Group(name, *this, mpi, Mode::open)`. The first component is the returned
child; the second is the state of `*this` after the call (the body assigns
no member). -/
def H5Group.group (g : H5Group) (name : String) : H5Group × H5Group :=
  (H5Group.construct name g g.mpi Mode.openMode, g)

/-- Embedding of `Group::create_group(name)` (hdf5.cc, lines 579-583):
returns `Group(name, *this, mpi, Mode::create)`; `*this` is unchanged. -/
def H5Group.create_group (g : H5Group) (name : String) : H5Group × H5Group :=
  (H5Group.construct name g g.mpi Mode.create, g)

/-- Embedding of `Group::create_dataset<T>(name, dimensions)` (hdf5.cc,
lines 585-592): returns `DataSet<T>(name, *hdf5_reference, dimensions, mpi,
Mode::create)` (with its constructor trace); `*this` is unchanged. -/
def H5Group.create_dataset (g : H5Group) (name : String) (dims : List Nat) :
    (DataSet × List H5Op) × H5Group :=
  (DataSet.construct name dims g.mpi Mode.create, g)

/-- Embedding of `Group::write_dataset(name, const std::vector<T> &)`
(hdf5.cc, lines 594-601): sets dimensions = {data.size()}, creates the
dataset, and performs the full-array write; the overall trace is the
constructor trace followed by the write trace (the fatal assertion aborts
before any write call). `*this` is unchanged. -/
def H5Group.write_dataset_vec (g : H5Group) (name : String) (dataLen : Nat) :
    Except AssertError (List H5Op) × H5Group :=
  let dimensions : List Nat := [dataLen]
  let created := (g.create_dataset name dimensions).1
  (match created.1.write_data_vec dataLen with
   | .ok t => .ok (created.2 ++ t)
   | .error e => .error e, g)

/-- Embedding of `Group::write_dataset(name, const FullMatrix<T> &)`
(hdf5.cc, lines 603-610): sets dimensions = {data.m(), data.n()}, creates
the dataset, and performs the full-array matrix write. `*this` is
unchanged. -/
def H5Group.write_dataset_mat (g : H5Group) (name : String) (m n : Nat) :
    Except AssertError (List H5Op) × H5Group :=
  let dimensions : List Nat := [m, n]
  let created := (g.create_dataset name dimensions).1
  (match created.1.write_data_mat m n with
   | .ok t => .ok (created.2 ++ t)
   | .error e => .error e, g)

/-- Modelled from the spec (section 4.4): the create+write sequence a caller
would otherwise issue manually for a flat sequence — derive `dimensions`
from the buffer as its length, call `create_dataset`, then perform a
full-array `write_data`. -/
def manual_create_then_write_vec (g : H5Group) (name : String) (dataLen : Nat) :
    Except AssertError (List H5Op) × H5Group :=
  let dimensions : List Nat := [dataLen]
  let created := (g.create_dataset name dimensions).1
  (match created.1.write_data_vec dataLen with
   | .ok t => .ok (created.2 ++ t)
   | .error e => .error e, g)

/-- Modelled from the spec (section 4.4): the create+write sequence a caller
would otherwise issue manually for a matrix — derive `dimensions` from the
buffer as its row and column counts, call `create_dataset`, then perform a
full-array `write_data`. -/
def manual_create_then_write_mat (g : H5Group) (name : String) (m n : Nat) :
    Except AssertError (List H5Op) × H5Group :=
  let dimensions : List Nat := [m, n]
  let created := (g.create_dataset name dimensions).1
  (match created.1.write_data_mat m n with
   | .ok t => .ok (created.2 ++ t)
   | .error e => .error e, g)

/-- The transfer-context discipline required of a write trace, as a function
of the owning object's mpi flag: collective discipline when mpi is set,
independent discipline otherwise. -/
def transferDiscipline (mpi : Bool) (t : List H5Op) : Bool :=
  if mpi then collectiveOk t else independentOk t

/-- Folding with 32-bit unsigned multiplication from a reduced seed computes
the true product reduced modulo 2^32. -/
theorem foldl_mulU32 (l : List Nat) (a : Nat) :
    l.foldl mulU32 (a % u32) = (l.foldl (· * ·) a) % u32 := by
  induction l generalizing a with
  | nil => rfl
  | cons c cs ih =>
      have h1 : mulU32 (a % u32) c = a * c % u32 := by
        unfold mulU32
        exact (Nat.mul_mod a c u32).symm
      simp only [List.foldl_cons]
      rw [h1]
      exact ih (a * c)

/-- The value the hyperslab dimension checks compare against is the true
product of the extents reduced modulo 2^32. -/
theorem accumulateU32_eq (l : List Nat) :
    accumulateU32 l = (l.foldl (· * ·) 1) % u32 := by
  have h1 : (1 : Nat) % u32 = 1 := Nat.mod_eq_of_lt (by norm_num [u32])
  have h := foldl_mulU32 l 1
  rw [h1] at h
  exact h

/-- C1: in open mode the constructor is required to store the dataset handle
for the given name and derive the owned dataspace from it; the code instead
obtains its handle from H5Gopen2 — a group open — and never assigns the
dataspace, while the deleter bound to the stored handle is H5Dclose, which
expects a dataset handle. This evaluates the open path at a concrete input
and exhibits the divergence. -/
theorem c1_open_mode_obtains_group_handle :
    (DataSet.construct "existing_dataset" [4, 7] false Mode.openMode).1.refKind
        = HandleKind.group ∧
    (DataSet.construct "existing_dataset" [4, 7] false Mode.openMode).1.dataspace
        = none ∧
    (DataSet.construct "existing_dataset" [4, 7] false Mode.openMode).1.refDeleter
        = CloseAction.dclose ∧
    (DataSet.construct "existing_dataset" [4, 7] false Mode.openMode).2
        = [H5Op.gopen "existing_dataset"] :=
  ⟨rfl, rfl, rfl, rfl⟩

/-- C4: `Group::write_dataset` (vector and matrix forms) performs exactly
the create-then-write sequence a caller would issue manually, with
dimensions derived from the buffer (length for a flat sequence, row and
column counts for a matrix). -/
theorem c4_write_dataset_is_create_then_write (g : H5Group) (name : String)
    (dataLen m n : Nat) :
    g.write_dataset_vec name dataLen = manual_create_then_write_vec g name dataLen ∧
    g.write_dataset_mat name m n = manual_create_then_write_mat g name m n :=
  ⟨rfl, rfl⟩

/-- C7: for every complex element type, `get_hdf5_datatype` returns a
freshly constructed compound descriptor with exactly two fields of the same
floating base type, named "r" at byte offset 0 and "i" at byte offset equal
to the width of one field, and the descriptor is owned: its disposal action
closes the compound type. -/
theorem c7_complex_compound_descriptor (e : ElemType)
    (h : e.isComplex = true) :
    ∃ f : NativeTypeId, f.isFloating = true ∧
      get_hdf5_datatype e =
        ⟨TypeVal.compound (2 * nativeWidth f)
           [⟨"r", 0, f⟩, ⟨"i", nativeWidth f, f⟩],
         some CloseAction.tclose⟩ := by
  cases e
  · exact Bool.noConfusion h
  · exact Bool.noConfusion h
  · exact Bool.noConfusion h
  · exact Bool.noConfusion h
  · exact Bool.noConfusion h
  · exact ⟨.NATIVE_FLOAT, rfl, rfl⟩
  · exact ⟨.NATIVE_DOUBLE, rfl, rfl⟩
  · exact ⟨.NATIVE_LDOUBLE, rfl, rfl⟩

/-- C7 witness: the complex-double instantiation satisfies the hypothesis
and the conclusion of the compound-descriptor theorem. -/
theorem c7_complex_compound_descriptor_witness :
    ElemType.isComplex ElemType.complexDouble = true ∧
    (∃ f : NativeTypeId, f.isFloating = true ∧
      get_hdf5_datatype ElemType.complexDouble =
        ⟨TypeVal.compound (2 * nativeWidth f)
           [⟨"r", 0, f⟩, ⟨"i", nativeWidth f, f⟩],
         some CloseAction.tclose⟩) :=
  ⟨rfl, c7_complex_compound_descriptor ElemType.complexDouble rfl⟩

/-- C8: the destructor of every constructed `DataSet` releases its two
owned resources in a fixed order — the dataset-handle wrapper (deleter
H5Dclose) first, the dataspace wrapper (deleter H5Sclose) after it. -/
theorem c8_destructor_releases_dataset_then_dataspace (name : String)
    (dims : List Nat) (mpi : Bool) (mode : Mode) :
    (DataSet.construct name dims mpi mode).1.destructor =
      [CloseAction.dclose, CloseAction.sclose] := by
  cases mode <;> rfl

/-- C10: every child object created through a Group carries the parent's
mpi flag unchanged, and none of `group`, `create_group`, `create_dataset`,
or `write_dataset` modifies the invoking Group's own state (name, mpi flag,
handle reference). -/
theorem c10_children_inherit_mpi_and_parent_unchanged (g : H5Group)
    (name : String) (dims : List Nat) (dataLen m n : Nat) :
    (g.group name).1.mpi = g.mpi ∧ (g.group name).2 = g ∧
    (g.create_group name).1.mpi = g.mpi ∧ (g.create_group name).2 = g ∧
    (g.create_dataset name dims).1.1.mpi = g.mpi ∧
    (g.create_dataset name dims).2 = g ∧
    (g.write_dataset_vec name dataLen).2 = g ∧
    (g.write_dataset_mat name m n).2 = g :=
  ⟨rfl, rfl, rfl, rfl, rfl, rfl, rfl, rfl⟩

/-- C2: for a dataset created with declared dimensions, `total_size` is the
product of the dimensions; the full-array writes (vector and matrix forms)
hit the fatal assertion path exactly when the buffer's element count differs
from `total_size`; and when the counts agree the issued H5Dwrite addresses
the entire declared extent (H5S_ALL for both memory and file dataspaces)
with the whole user buffer. -/
theorem c2_full_write_checks_total_size (name : String) (dims : List Nat)
    (mpi : Bool) (dataLen m n : Nat) :
    (DataSet.construct name dims mpi Mode.create).1.total_size
        = dims.foldl (· * ·) 1 ∧
    (writeOk ((DataSet.construct name dims mpi Mode.create).1.write_data_vec
        dataLen) = false ↔
      (DataSet.construct name dims mpi Mode.create).1.total_size ≠ dataLen) ∧
    (writeOk ((DataSet.construct name dims mpi Mode.create).1.write_data_mat
        m n) = false ↔
      (DataSet.construct name dims mpi Mode.create).1.total_size ≠ m * n) ∧
    (∀ t, (DataSet.construct name dims mpi Mode.create).1.write_data_vec
        dataLen = Except.ok t →
      H5Op.dwrite SpaceArg.all SpaceArg.all
        (if mpi then PlistArg.xferCollective else PlistArg.h5pDefault)
        (BufArg.user dataLen) ∈ t) := by
  set ds := (DataSet.construct name dims mpi Mode.create).1 with hds
  refine ⟨rfl, ?_, ?_, ?_⟩
  · unfold DataSet.write_data_vec
    by_cases hc : ds.total_size = dataLen
    · simp [hc, writeOk]
    · simp [hc, writeOk]
  · unfold DataSet.write_data_mat
    by_cases hc : ds.total_size = m * n
    · simp [hc, writeOk]
    · simp [hc, writeOk]
  · intro t ht
    unfold DataSet.write_data_vec at ht
    split at ht
    · injection ht with h2
      subst h2
      have hm : ds.mpi = mpi := rfl
      rw [hm]
      cases mpi <;> simp
    · exact Except.noConfusion ht

/-- C2 witness: a 2×3 dataset accepts a 6-element full-array write, and the
issued H5Dwrite covers the entire extent. -/
theorem c2_full_write_checks_total_size_witness :
    H5Op.dwrite SpaceArg.all SpaceArg.all PlistArg.h5pDefault (BufArg.user 6) ∈
      [H5Op.dwrite SpaceArg.all SpaceArg.all PlistArg.h5pDefault
        (BufArg.user 6)] :=
  (c2_full_write_checks_total_size "v" [2, 3] false 6 0 0).2.2.2 _ rfl

/-- C6: the selection write hits the fatal assertion path exactly when the
coordinate list's length differs from element count × rank; under the
precondition it selects the listed elements on the on-disk dataspace
(H5Sselect_elements with the element count and the flat coordinate list)
and writes the buffer into that selection (H5Dwrite with the dataset's own
dataspace as file space). -/
theorem c6_selection_write_coordinates (ds : DataSet) (dataLen : Nat)
    (coords : List Nat) :
    (writeOk (ds.write_data_selection dataLen coords) = false ↔
      coords.length ≠ dataLen * ds.rank) ∧
    (∀ t, ds.write_data_selection dataLen coords = Except.ok t →
      H5Op.selectElements dataLen coords ∈ t ∧
      H5Op.dwrite (SpaceArg.mem 1 [dataLen]) SpaceArg.file
        (if ds.mpi then PlistArg.xferCollective else PlistArg.h5pDefault)
        (BufArg.user dataLen) ∈ t) := by
  constructor
  · unfold DataSet.write_data_selection
    by_cases hc : coords.length = dataLen * ds.rank
    · simp [hc, writeOk]
    · simp [hc, writeOk]
  · intro t ht
    unfold DataSet.write_data_selection at ht
    split at ht
    · injection ht with h2
      subst h2
      cases ds.mpi <;> simp
    · exact Except.noConfusion ht

/-- C6 witness: two elements of a 5×5 dataset, addressed by the coordinate
list (0,0),(2,3), pass the length check and are selected and written. -/
theorem c6_selection_write_coordinates_witness :
    H5Op.selectElements 2 [0, 0, 2, 3] ∈
      [H5Op.screateSimple 1 [2], H5Op.selectElements 2 [0, 0, 2, 3],
       H5Op.dwrite (SpaceArg.mem 1 [2]) SpaceArg.file PlistArg.h5pDefault
         (BufArg.user 2), H5Op.sclose] ∧
    H5Op.dwrite (SpaceArg.mem 1 [2]) SpaceArg.file PlistArg.h5pDefault
        (BufArg.user 2) ∈
      [H5Op.screateSimple 1 [2], H5Op.selectElements 2 [0, 0, 2, 3],
       H5Op.dwrite (SpaceArg.mem 1 [2]) SpaceArg.file PlistArg.h5pDefault
         (BufArg.user 2), H5Op.sclose] :=
  (c6_selection_write_coordinates
    (DataSet.construct "s" [5, 5] false Mode.create).1 2 [0, 0, 2, 3]).2 _ rfl

/-- C5 counterexample: a hyperslab write whose per-axis counts multiply to
2^32 (so the 32-bit accumulated product wraps to 0) accepts an empty buffer
without hitting the fatal assertion path, although the buffer's element
count 0 differs from the true product of the counts. -/
theorem c5_counterexample_overflowed_check :
    (0 : Nat) ≠ ([65536, 65536] : List Nat).foldl (· * ·) 1 ∧
    writeOk ((DataSet.construct "cex" [65536, 65536] false
        Mode.create).1.write_data_hyperslab_vec 0 [0, 0] [65536, 65536])
      = true := by
  constructor
  · decide
  · rfl

/-- C5 (amended): both hyperslab writes select the contiguous non-strided
rectangular sub-region starting at `offset` with extent `count` (NULL stride
and NULL block), and they hit the fatal assertion path exactly when the
buffer's element count differs from the product of `count` across axes
accumulated with 32-bit unsigned multiplication — that is, the true product
reduced modulo 2^32. -/
theorem c5_hyperslab_select_and_check (ds : DataSet) (dataLen m n : Nat)
    (offset count : List Nat) :
    accumulateU32 count = (count.foldl (· * ·) 1) % u32 ∧
    (writeOk (ds.write_data_hyperslab_vec dataLen offset count) = false ↔
      accumulateU32 count ≠ dataLen) ∧
    (writeOk (ds.write_data_hyperslab_mat m n offset count) = false ↔
      accumulateU32 count ≠ m * n) ∧
    (∀ t, ds.write_data_hyperslab_vec dataLen offset count = Except.ok t →
      H5Op.selectHyperslab offset none count none ∈ t) ∧
    (∀ t, ds.write_data_hyperslab_mat m n offset count = Except.ok t →
      H5Op.selectHyperslab offset none count none ∈ t) := by
  refine ⟨accumulateU32_eq count, ?_, ?_, ?_, ?_⟩
  · unfold DataSet.write_data_hyperslab_vec
    by_cases hc : accumulateU32 count = dataLen
    · simp [hc, writeOk]
    · simp [hc, writeOk]
  · unfold DataSet.write_data_hyperslab_mat
    by_cases hc : accumulateU32 count = m * n
    · simp [hc, writeOk]
    · simp [hc, writeOk]
  · intro t ht
    unfold DataSet.write_data_hyperslab_vec at ht
    split at ht
    · injection ht with h2
      subst h2
      cases ds.mpi <;> simp
    · exact Except.noConfusion ht
  · intro t ht
    unfold DataSet.write_data_hyperslab_mat at ht
    split at ht
    · injection ht with h2
      subst h2
      cases ds.mpi <;> simp
    · exact Except.noConfusion ht

/-- C5 witness: a 2×2 block at offset (1,1) with a 4-element buffer passes
the check and the trace selects exactly that contiguous hyperslab. -/
theorem c5_hyperslab_select_and_check_witness :
    H5Op.selectHyperslab [1, 1] none [2, 2] none ∈
      [H5Op.screateSimple 1 [4],
       H5Op.selectHyperslab [1, 1] none [2, 2] none,
       H5Op.dwrite (SpaceArg.mem 1 [4]) SpaceArg.file PlistArg.h5pDefault
         (BufArg.user 4), H5Op.sclose] :=
  (c5_hyperslab_select_and_check
    (DataSet.construct "h" [4, 4] false Mode.create).1 4 0 0
    [1, 1] [2, 2]).2.2.2.1 _ rfl

/-- C9: in both hyperslab write variants the expected element count is the
per-axis counts folded with 32-bit unsigned multiplication, so the dimension
check passes exactly when the buffer size equals the true product of the
extents reduced modulo 2^32; and whenever the true product is at least 2^32
this truncated value differs from the true product. -/
theorem c9_hyperslab_count_folds_mod_u32 (ds : DataSet) (dataLen m n : Nat)
    (offset count : List Nat)
    (h : u32 ≤ count.foldl (· * ·) 1) :
    (writeOk (ds.write_data_hyperslab_vec dataLen offset count) = true ↔
      (count.foldl (· * ·) 1) % u32 = dataLen) ∧
    (writeOk (ds.write_data_hyperslab_mat m n offset count) = true ↔
      (count.foldl (· * ·) 1) % u32 = m * n) ∧
    (count.foldl (· * ·) 1) % u32 ≠ count.foldl (· * ·) 1 := by
  refine ⟨?_, ?_, ?_⟩
  · unfold DataSet.write_data_hyperslab_vec
    rw [← accumulateU32_eq]
    by_cases hc : accumulateU32 count = dataLen
    · simp [hc, writeOk]
    · simp [hc, writeOk]
  · unfold DataSet.write_data_hyperslab_mat
    rw [← accumulateU32_eq]
    by_cases hc : accumulateU32 count = m * n
    · simp [hc, writeOk]
    · simp [hc, writeOk]
  · intro heq
    have hlt : (count.foldl (· * ·) 1) % u32 < u32 :=
      Nat.mod_lt _ (by norm_num [u32])
    rw [heq] at hlt
    exact absurd hlt (Nat.not_lt.mpr h)

/-- C9 witness: counts 65536 × 65536 have true product 2^32; the check
validates a 0-element buffer against the wrapped value 0, and the truncated
value differs from the true product. -/
theorem c9_hyperslab_count_folds_mod_u32_witness :
    (writeOk ((DataSet.construct "w9" [8] true
        Mode.create).1.write_data_hyperslab_vec 0 [0, 0] [65536, 65536])
      = true ↔
      (([65536, 65536] : List Nat).foldl (· * ·) 1) % u32 = 0) ∧
    (writeOk ((DataSet.construct "w9" [8] true
        Mode.create).1.write_data_hyperslab_mat 0 0 [0, 0] [65536, 65536])
      = true ↔
      (([65536, 65536] : List Nat).foldl (· * ·) 1) % u32 = 0 * 0) ∧
    (([65536, 65536] : List Nat).foldl (· * ·) 1) % u32 ≠
      ([65536, 65536] : List Nat).foldl (· * ·) 1 :=
  c9_hyperslab_count_folds_mod_u32
    (DataSet.construct "w9" [8] true Mode.create).1 0 0 0
    [0, 0] [65536, 65536] (by decide)

/-- C3: every write variant that completes (vector and matrix full-array,
selection, both hyperslab forms, and the empty write) follows the
transfer-context discipline of the owning object's mpi flag: when mpi is
true the trace creates exactly one transfer property list, configures it
for collective mode before the single H5Dwrite, issues the write with it,
and closes it after the write; when mpi is false no transfer property list
is created or closed and the write uses H5P_DEFAULT. -/
theorem c3_transfer_context_discipline (ds : DataSet) (c : WriteCall)
    (t : List H5Op) (h : ds.issue c = Except.ok t) :
    transferDiscipline ds.mpi t = true := by
  cases hm : ds.mpi
  all_goals cases c
  all_goals simp only [DataSet.issue, DataSet.write_data_vec,
    DataSet.write_data_mat, DataSet.write_data_selection,
    DataSet.write_data_hyperslab_vec, DataSet.write_data_hyperslab_mat,
    DataSet.write_data_none, hm, Bool.false_eq_true, if_false, if_true,
    ite_false, ite_true] at h
  all_goals
    first
      | (injection h with h2
         subst h2
         rfl)
      | (split at h
         · injection h with h2
           subst h2
           rfl
         · exact Except.noConfusion h)

/-- C3 witness: the empty write on an mpi-enabled dataset satisfies the
collective transfer-context discipline. -/
theorem c3_transfer_context_discipline_witness :
    transferDiscipline (DataSet.construct "m" [3] true Mode.create).1.mpi
      ((DataSet.construct "m" [3] true Mode.create).1.write_data_none)
      = true :=
  c3_transfer_context_discipline
    (DataSet.construct "m" [3] true Mode.create).1 WriteCall.emptyWrite _ rfl
